import Mathlib

/-!
Shallow embedding of the landlord property service (an Express/Joi/pg
HTTP service, `src/unnamed/part_001` being the complete variant) and
verification of its specification claims.

Modelling conventions:
* SQL `NUMERIC` / `DECIMAL` values are modelled as `Rat`, SQL `INTEGER`
  as `Int`; a nullable column is an `Option`.
* A table is a `List` of rows in insertion order; `SELECT ... WHERE`
  is `List.filter` / `List.find?` (`find?` returns the first matching
  row, as `rows[0]` does).
* JavaScript numbers produced and consumed by this service are integral
  or decimal values handled exactly, so they are embedded as `Nat` /
  `Int` / `Rat` with the JS operations (`Math.ceil`, `Math.floor`,
  `Math.round`, `parseInt`) given explicit embeddings below.
-/

namespace PropertyService

/-- Row of the external `users` table (columns used by this service:
`id`, `role`, plus the display fields selected by the joins). -/
structure User where
  id : Int
  role : String
  first_name : String
  last_name : String
  email : String
deriving DecidableEq, Repr

/-- Row of the `properties` table, per the `CREATE TABLE` statement in
the `/setup-database` handler.  Nullable columns are `Option`. -/
structure Property where
  id : Int
  address : String
  city : String
  state : String
  zip_code : String
  rent_amount : Option Rat
  bedrooms : Option Int
  bathrooms : Option Rat
  square_feet : Option Int
  description : Option String
  landlord_id : Int
  landlord_verified : Bool
  created_at : Int
deriving DecidableEq, Repr

/-- Body of a POST /properties request, already shaped (Joi `convert`
mode turns numeric strings into numbers before the checks run). -/
structure CreateReq where
  address : String
  city : String
  state : String
  zip_code : String
  rent_amount : Option Rat
  bedrooms : Option Int
  bathrooms : Option Rat
  square_feet : Option Int
  description : Option String
  landlord_id : Int
deriving DecidableEq, Repr

/-- Embedding of SQL `LOWER` (and of the only case mapping this service
needs): lower-case every character of the string. -/
def lowerStr (s : String) : String := String.mk (s.data.map Char.toLower)

/-- Decimal digit test (`\\d` of the Joi patterns), stated on the code
point so that proofs can reason about it arithmetically; it agrees with
`Char.isDigit`. -/
def isDigitChar (c : Char) : Bool :=
  decide (48 ≤ c.toNat) && decide (c.toNat ≤ 57)

/-- Joi pattern for `zip_code`: five digits optionally followed by a
hyphen and four digits. -/
def zipCodeOk (s : String) : Bool :=
  match s.data with
  | [a, b, c, d, e] => [a, b, c, d, e].all isDigitChar
  | [a, b, c, d, e, f, g, h, i, j] =>
      [a, b, c, d, e].all isDigitChar && f == '-' && [g, h, i, j].all isDigitChar
  | _ => false

/-- Embedding of `createPropertySchema.validate`: the per-field bounds
of the Joi object for POST /properties.  Joi `precision(n)` in its
default `convert` mode rounds rather than rejects, so it contributes no
acceptance constraint and is not modelled. -/
def createValid (r : CreateReq) : Bool :=
  decide (5 ≤ r.address.length) && decide (r.address.length ≤ 500) &&
  decide (2 ≤ r.city.length) && decide (r.city.length ≤ 100) &&
  decide (2 ≤ r.state.length) && decide (r.state.length ≤ 50) &&
  zipCodeOk r.zip_code &&
  (match r.rent_amount with
   | none => true
   | some q => decide (0 < q) && decide (q ≤ 50000)) &&
  (match r.bedrooms with
   | none => true
   | some b => decide (0 ≤ b) && decide (b ≤ 20)) &&
  (match r.bathrooms with
   | none => true
   | some q => decide (0 < q) && decide (q ≤ 20)) &&
  (match r.square_feet with
   | none => true
   | some n => decide (0 < n) && decide (n ≤ 50000)) &&
  (match r.description with
   | none => true
   | some d => decide (d.length ≤ 2000))

/-- Error thrown by the store; `code` is the Postgres error code field
(`error.code` in the handler's catch block), absent for non-Postgres
errors. -/
structure DBErr where
  code : Option String
deriving DecidableEq, Repr

/-- Which (if any) of the three store round-trips of the create handler
throws.  `.ok` is the normal run. -/
inductive StoreFault where
  | ok
  | failLandlordCheck (e : DBErr)
  | failDuplicateCheck (e : DBErr)
  | failInsert (e : DBErr)
deriving DecidableEq, Repr

/-- Responses of the POST /properties handler. -/
inductive CreateResp where
  | validationFailed
  | landlordNotFound
  | invalidRole
  | conflict (existing_property_id : Int)
  | created (property : Property)
  | invalidLandlordId
  | internalError
deriving DecidableEq, Repr

/-- HTTP status of each create response. -/
def CreateResp.statusCode : CreateResp → Nat
  | .validationFailed => 400
  | .landlordNotFound => 404
  | .invalidRole => 403
  | .conflict _ => 409
  | .created _ => 201
  | .invalidLandlordId => 400
  | .internalError => 500

/-- The `error` field of each create response body. -/
def CreateResp.errorField : CreateResp → Option String
  | .validationFailed => some "Validation failed"
  | .landlordNotFound => some "Landlord not found"
  | .invalidRole => some "Invalid user role"
  | .conflict _ => some "Property already exists"
  | .created _ => none
  | .invalidLandlordId => some "Invalid landlord_id"
  | .internalError => some "Internal server error"

/-- Catch block of the create handler: Postgres error code 23503
(foreign-key violation) becomes 400 Invalid landlord_id, everything
else 500. -/
def createCatch (e : DBErr) : CreateResp :=
  if e.code == some "23503" then .invalidLandlordId else .internalError

/-- Predicate of the duplicate check query:
`LOWER(address) = LOWER($1) AND zip_code = $2` — address is compared
case-insensitively, zip_code exactly. -/
def dupMatches (req : CreateReq) (p : Property) : Bool :=
  lowerStr p.address == lowerStr req.address && p.zip_code == req.zip_code

/-- The POST /properties handler with the store's failure behaviour
`sf` made explicit.  `nextId` is the value the `SERIAL` id column
assigns, `now` the store's `NOW()`.  Returns the response and the
`properties` table after the request. -/
def createPropertyRun (sf : StoreFault) (users : List User)
    (props : List Property) (nextId now : Int) (req : CreateReq) :
    CreateResp × List Property :=
  if !createValid req then (.validationFailed, props)
  else
    match sf with
    | .failLandlordCheck e => (createCatch e, props)
    | _ =>
      match users.find? (fun u => u.id == req.landlord_id) with
      | none => (.landlordNotFound, props)
      | some landlord =>
        if landlord.role != "landlord" then (.invalidRole, props)
        else
          match sf with
          | .failDuplicateCheck e => (createCatch e, props)
          | _ =>
            match props.find? (dupMatches req) with
            | some p => (.conflict p.id, props)
            | none =>
              match sf with
              | .failInsert e => (createCatch e, props)
              | _ =>
                let newProp : Property :=
                  { id := nextId
                    address := req.address
                    city := req.city
                    state := req.state
                    zip_code := req.zip_code
                    rent_amount := req.rent_amount
                    bedrooms := req.bedrooms
                    bathrooms := req.bathrooms
                    square_feet := req.square_feet
                    description := req.description
                    landlord_id := req.landlord_id
                    landlord_verified := false
                    created_at := now }
                (.created newProp, props ++ [newProp])

/-- The POST /properties handler on a store that does not throw. -/
def createProperty (users : List User) (props : List Property)
    (nextId now : Int) (req : CreateReq) : CreateResp × List Property :=
  createPropertyRun .ok users props nextId now req

/-! ### JavaScript `parseInt` -/

/-- White space accepted by JS `parseInt` before the numeral (the
common cases; exotic Unicode spaces behave the same way). -/
def jsWhite (c : Char) : Bool :=
  c == ' ' || c == '\t' || c == '\n' || c == '\r'

/-- Numeric value of a list of digits in the given base. -/
def digitsToNat (base : Nat) (ds : List Char) : Nat :=
  ds.foldl (fun acc c => acc * base +
    (if c.isDigit then c.toNat - 48
     else if decide ('a' ≤ c) && decide (c ≤ 'f') then c.toNat - 87
     else c.toNat - 55)) 0

/-- Hexadecimal digit test. -/
def isHexDigitChar (c : Char) : Bool :=
  c.isDigit || (decide ('a' ≤ c) && decide (c ≤ 'f')) ||
    (decide ('A' ≤ c) && decide (c ≤ 'F'))

/-- Embedding of JS `parseInt(s)` (radix argument omitted, as in the
source): skip leading white space, an optional sign, an optional
`0x`/`0X` base marker (then hexadecimal); take the longest prefix of
digits; `none` is JS `NaN`. -/
def jsParseInt (s : String) : Option Int :=
  let cs := s.data.dropWhile jsWhite
  let (sign, cs1) : Int × List Char :=
    match cs with
    | '-' :: rest => (-1, rest)
    | '+' :: rest => (1, rest)
    | _ => (1, cs)
  let (base, cs2) : Nat × List Char :=
    match cs1 with
    | '0' :: 'x' :: rest => (16, rest)
    | '0' :: 'X' :: rest => (16, rest)
    | _ => (10, cs1)
  let ds := cs2.takeWhile (fun c =>
    if base == 16 then isHexDigitChar c else c.isDigit)
  if ds.isEmpty then none else some (sign * (digitsToNat base ds : Int))

/-! ### GET /properties/:id -/

/-- Responses of the GET /properties/:id handler. -/
inductive GetByIdResp where
  | invalidId
  | notFound
  | found (p : Property) (landlord : User)
  | internalError
deriving DecidableEq, Repr

/-- HTTP status of each get-by-id response. -/
def GetByIdResp.statusCode : GetByIdResp → Nat
  | .invalidId => 400
  | .notFound => 404
  | .found _ _ => 200
  | .internalError => 500

/-- The GET /properties/:id handler: `parseInt` the path parameter,
400 on NaN, otherwise run the `properties JOIN users` query and
return 404 when it yields no row. -/
def getPropertyById (props : List Property) (users : List User)
    (idStr : String) : GetByIdResp :=
  match jsParseInt idStr with
  | none => .invalidId
  | some n =>
    match props.find? (fun p => p.id == n) with
    | none => .notFound
    | some p =>
      match users.find? (fun u => u.id == p.landlord_id) with
      | none => .notFound
      | some u => .found p u

/-! ### Express routing

Express dispatches a request to the first registered route whose
pattern matches; `:param` segments match any single non-empty path
segment.  The registration order below is the order of the
`app.get`/`app.post` calls in `src/unnamed/part_001`. -/

/-- One segment of a route pattern. -/
inductive Seg where
  | lit (s : String)
  | capture
deriving DecidableEq, Repr

/-- Does a pattern segment match a path segment? -/
def segMatches : Seg → String → Bool
  | .lit s, t => s == t
  | .capture, t => !t.isEmpty

/-- Does a full pattern match a full path (as segment lists)? -/
def patMatches : List Seg → List String → Bool
  | [], [] => true
  | p :: ps, t :: ts => segMatches p t && patMatches ps ts
  | _, _ => false

/-- The handlers of this service. -/
inductive Route where
  | health
  | root
  | testEndpoint
  | setupDatabase
  | postProperties
  | getPropertyByIdRoute
  | searchPropertiesRoute
  | statsRoute
deriving DecidableEq, Repr

/-- The route table, in registration order. -/
def routes : List (String × List Seg × Route) :=
  [ ("GET", [Seg.lit "health"], Route.health),
    ("GET", [], Route.root),
    ("GET", [Seg.lit "test"], Route.testEndpoint),
    ("GET", [Seg.lit "setup-database"], Route.setupDatabase),
    ("POST", [Seg.lit "properties"], Route.postProperties),
    ("GET", [Seg.lit "properties", Seg.capture], Route.getPropertyByIdRoute),
    ("GET", [Seg.lit "properties"], Route.searchPropertiesRoute),
    ("GET", [Seg.lit "properties", Seg.lit "stats"], Route.statsRoute) ]

/-- Express dispatch: the first registered route matching the method
and path handles the request. -/
def dispatch (method : String) (path : List String) : Option Route :=
  (routes.find? (fun r => r.1 == method && patMatches r.2.1 path)).map
    (fun r => r.2.2)

/-! ### GET /properties (search) -/

/-- Query parameters of GET /properties, already shaped by Joi
`convert` mode (numeric strings to numbers, booleans parsed); an
absent parameter is `none`.  `limit` and `offset` are `Nat` because
their Joi rules require integers ≥ 1 resp. ≥ 0. -/
structure SearchParams where
  city : Option String
  state : Option String
  zip_code : Option String
  min_rent : Option Rat
  max_rent : Option Rat
  min_bedrooms : Option Int
  max_bedrooms : Option Int
  min_bathrooms : Option Rat
  max_bathrooms : Option Rat
  min_sqft : Option Int
  max_sqft : Option Int
  landlord_verified : Option Bool
  sort_by : Option String
  limit : Option Nat
  offset : Option Nat
deriving DecidableEq, Repr

/-- The per-field bounds of `searchPropertiesSchema` (everything except
the cross-field range rules). -/
def searchFieldBoundsOk (sp : SearchParams) : Bool :=
  (match sp.city with
   | none => true
   | some c => decide (2 ≤ c.length) && decide (c.length ≤ 100)) &&
  (match sp.state with
   | none => true
   | some s => decide (2 ≤ s.length) && decide (s.length ≤ 50)) &&
  (match sp.zip_code with
   | none => true
   | some z => zipCodeOk z) &&
  (match sp.min_rent with
   | none => true
   | some q => decide (0 < q) && decide (q ≤ 50000)) &&
  (match sp.max_rent with
   | none => true
   | some q => decide (0 < q) && decide (q ≤ 50000)) &&
  (match sp.min_bedrooms with
   | none => true
   | some b => decide (0 ≤ b) && decide (b ≤ 20)) &&
  (match sp.max_bedrooms with
   | none => true
   | some b => decide (0 ≤ b) && decide (b ≤ 20)) &&
  (match sp.min_bathrooms with
   | none => true
   | some q => decide (0 < q) && decide (q ≤ 20)) &&
  (match sp.max_bathrooms with
   | none => true
   | some q => decide (0 < q) && decide (q ≤ 20)) &&
  (match sp.min_sqft with
   | none => true
   | some n => decide (0 < n) && decide (n ≤ 50000)) &&
  (match sp.max_sqft with
   | none => true
   | some n => decide (0 < n) && decide (n ≤ 50000)) &&
  (match sp.sort_by with
   | none => true
   | some s => s == "rent_asc" || s == "rent_desc" || s == "newest" ||
       s == "oldest" || s == "sqft_asc" || s == "sqft_desc") &&
  (match sp.limit with
   | none => true
   | some l => decide (1 ≤ l) && decide (l ≤ 100))

/-- Joi `.greater(Joi.ref('min_rent'))` on the rent pair: when both
ends are present the maximum must be STRICTLY greater than the
reference (this is the comparator the source chain uses for rent,
unlike the `.min(ref)` — greater or equal — of the other pairs).  When
`max_rent` is supplied but `min_rent` is not, the reference resolves
to `undefined` and Joi fails the rule with an `any.ref` error, so such
a request is rejected too; with `max_rent` absent the rule does not
run. -/
def pairStrictlyGreater (mn mx : Option Rat) : Bool :=
  match mn, mx with
  | some a, some b => decide (a < b)
  | none, some _ => false
  | _, none => true

/-- Joi `.min(Joi.ref(min))` on an optional pair: when both ends are
present the maximum must be at least the reference.  As with
`pairStrictlyGreater`, a supplied maximum whose reference minimum is
absent fails the rule with an `any.ref` error; an absent maximum does
not run the rule. -/
def pairAtLeast {α : Type} [le : LE α] [DecidableRel (@LE.le α le)]
    (mn mx : Option α) : Bool :=
  match mn, mx with
  | some a, some b => decide (a ≤ b)
  | none, some _ => false
  | _, none => true

/-- The cross-field range rules, assembled. -/
def rangePairsOk (sp : SearchParams) : Bool :=
  pairStrictlyGreater sp.min_rent sp.max_rent &&
  pairAtLeast sp.min_bedrooms sp.max_bedrooms &&
  pairAtLeast sp.min_bathrooms sp.max_bathrooms &&
  pairAtLeast sp.min_sqft sp.max_sqft

/-- Embedding of `searchPropertiesSchema.validate`. -/
def searchValid (sp : SearchParams) : Bool :=
  searchFieldBoundsOk sp && rangePairsOk sp

/-- SQL `LIKE` pattern matching over character lists: `%` matches any
sequence, `_` any single character, anything else itself. -/
def likeMatch : List Char → List Char → Bool
  | [], [] => true
  | [], _ :: _ => false
  | '%' :: ps, [] => likeMatch ps []
  | '%' :: ps, c :: s => likeMatch ps (c :: s) || likeMatch ('%' :: ps) s
  | '_' :: _, [] => false
  | '_' :: ps, _ :: s => likeMatch ps s
  | _ :: _, [] => false
  | p :: ps, c :: s => p == c && likeMatch ps s
termination_by ps s => (s.length, ps.length)

/-- The city condition of the WHERE clause:
`LOWER(p.city) LIKE LOWER($n)` with parameter `%city%`. -/
def cityCond (c : String) (p : Property) : Bool :=
  likeMatch (lowerStr (String.mk ('%' :: c.data ++ ['%']))).data
    (lowerStr p.city).data

/-- SQL comparison `col >= v` on a nullable column: NULL compares to
nothing, so the row is not selected. -/
def sqlGe {α : Type} [le : LE α] [DecidableRel (@LE.le α le)] (col : Option α) (v : α) : Bool :=
  match col with
  | none => false
  | some x => decide (v ≤ x)

/-- SQL comparison `col <= v` on a nullable column. -/
def sqlLe {α : Type} [le : LE α] [DecidableRel (@LE.le α le)] (col : Option α) (v : α) : Bool :=
  match col with
  | none => false
  | some x => decide (x ≤ v)

/-- The city conjunct of the WHERE clause (`if (city)` then
`LOWER(p.city) LIKE LOWER($n)`): JS truthiness makes an empty supplied
string contribute no condition. -/
def cityGuard (mo : Option String) (p : Property) : Bool :=
  match mo with
  | none => true
  | some c => if c.data.isEmpty then true else cityCond c p

/-- The state conjunct (`if (state)` then
`LOWER(p.state) = LOWER($n)`). -/
def stateGuard (mo : Option String) (p : Property) : Bool :=
  match mo with
  | none => true
  | some s => if s.data.isEmpty then true else lowerStr p.state == lowerStr s

/-- The zip conjunct (`if (zip_code)` then `p.zip_code = $n`). -/
def zipGuard (mo : Option String) (p : Property) : Bool :=
  match mo with
  | none => true
  | some z => if z.data.isEmpty then true else p.zip_code == z

/-- A lower-bound conjunct (`if (x !== undefined)` then `col >= $n`). -/
def minGuard {α : Type} [le : LE α] [DecidableRel (@LE.le α le)]
    (mo : Option α) (col : Option α) : Bool :=
  match mo with
  | none => true
  | some v => sqlGe col v

/-- An upper-bound conjunct (`if (x !== undefined)` then `col <= $n`). -/
def maxGuard {α : Type} [le : LE α] [DecidableRel (@LE.le α le)]
    (mo : Option α) (col : Option α) : Bool :=
  match mo with
  | none => true
  | some v => sqlLe col v

/-- The boolean conjunct (`if (landlord_verified !== undefined)` then
`p.landlord_verified = $n`). -/
def boolGuard (mo : Option Bool) (b : Bool) : Bool :=
  match mo with
  | none => true
  | some v => b == v

/-- The dynamically built WHERE clause of the search query, as a row
predicate: one conjunct per supplied parameter, none for an absent
one.  `city`, `state` and `zip_code` are gated by JS truthiness
(`if (city)`), which on validated strings is just presence; the
numeric and boolean parameters are gated by `!== undefined`. -/
def rowMatches (sp : SearchParams) (p : Property) : Bool :=
  cityGuard sp.city p &&
  stateGuard sp.state p &&
  zipGuard sp.zip_code p &&
  minGuard sp.min_rent p.rent_amount &&
  maxGuard sp.max_rent p.rent_amount &&
  minGuard sp.min_bedrooms p.bedrooms &&
  maxGuard sp.max_bedrooms p.bedrooms &&
  minGuard sp.min_bathrooms p.bathrooms &&
  maxGuard sp.max_bathrooms p.bathrooms &&
  minGuard sp.min_sqft p.square_feet &&
  maxGuard sp.max_sqft p.square_feet &&
  boolGuard sp.landlord_verified p.landlord_verified

/-- Ordering on a nullable sort key: ascending with `NULLS LAST`. -/
def optLeNullsLast {α : Type} [le : LE α] [DecidableRel (@LE.le α le)] :
    Option α → Option α → Bool
  | none, none => true
  | none, some _ => false
  | some _, none => true
  | some x, some y => decide (x ≤ y)

/-- Ordering on a nullable sort key: descending with `NULLS LAST`. -/
def optGeNullsLast {α : Type} [le : LE α] [DecidableRel (@LE.le α le)] :
    Option α → Option α → Bool
  | none, none => true
  | none, some _ => false
  | some _, none => true
  | some x, some y => decide (y ≤ x)

/-- Insert into a list sorted by `le` (auxiliary for `sortByLe`). -/
def insertLe (le : Property → Property → Bool) (p : Property) :
    List Property → List Property
  | [] => [p]
  | q :: qs => if le p q then p :: q :: qs else q :: insertLe le p qs

/-- Sort a list of rows by the boolean comparison `le` (insertion
sort; which stable sorting algorithm realises ORDER BY is the store's
choice and is observably irrelevant here). -/
def sortByLe (le : Property → Property → Bool) :
    List Property → List Property
  | [] => []
  | p :: ps => insertLe le p (sortByLe le ps)

/-- The ORDER BY clause of the search query, per `sort_by` (`newest`,
explicit or by the switch's default branch, is `created_at DESC`). -/
def sortProps (sort_by : String) (l : List Property) : List Property :=
  if sort_by == "rent_asc" then
    sortByLe (fun a b => optLeNullsLast a.rent_amount b.rent_amount) l
  else if sort_by == "rent_desc" then
    sortByLe (fun a b => optGeNullsLast a.rent_amount b.rent_amount) l
  else if sort_by == "oldest" then
    sortByLe (fun a b => decide (a.created_at ≤ b.created_at)) l
  else if sort_by == "sqft_asc" then
    sortByLe (fun a b => optLeNullsLast a.square_feet b.square_feet) l
  else if sort_by == "sqft_desc" then
    sortByLe (fun a b => optGeNullsLast a.square_feet b.square_feet) l
  else
    sortByLe (fun a b => decide (b.created_at ≤ a.created_at)) l

/-- Pagination metadata of the search response. -/
structure Pagination where
  total_count : Nat
  total_pages : Nat
  current_page : Nat
  limit : Nat
  offset : Nat
  has_next : Bool
  has_previous : Bool
deriving DecidableEq, Repr

/-- The pagination block of the handler:
`Math.ceil(totalCount / limit)` on naturals is `(t + l - 1) / l`,
`Math.floor(offset / limit)` is natural division. -/
def mkPagination (totalCount limit offset : Nat) : Pagination :=
  let totalPages := (totalCount + limit - 1) / limit
  let currentPage := offset / limit + 1
  { total_count := totalCount
    total_pages := totalPages
    current_page := currentPage
    limit := limit
    offset := offset
    has_next := decide (currentPage < totalPages)
    has_previous := decide (1 < currentPage) }

/-- Responses of the GET /properties handler. -/
inductive SearchResp where
  | invalidParams
  | results (properties : List Property) (pagination : Pagination)
  | internalError
deriving DecidableEq, Repr

/-- HTTP status of each search response. -/
def SearchResp.statusCode : SearchResp → Nat
  | .invalidParams => 400
  | .results _ _ => 200
  | .internalError => 500

/-- The GET /properties handler: validate, apply defaults
(`sort_by = newest`, `limit = 20`, `offset = 0`), run the joined,
filtered, sorted, paginated page query together with the count query
over the same join and filters, and assemble the pagination metadata.
The response carries the selected rows; the field flattening of
`formattedProperties` renames fields without changing which rows are
returned, so it is not modelled. -/
def searchProperties (props : List Property) (users : List User)
    (sp : SearchParams) : SearchResp :=
  if !searchValid sp then .invalidParams
  else
    let limit := sp.limit.getD 20
    let offset := sp.offset.getD 0
    let sortBy := sp.sort_by.getD "newest"
    let joined := props.filter
      (fun p => (users.find? (fun u => u.id == p.landlord_id)).isSome)
    let filtered := joined.filter (rowMatches sp)
    let page := ((sortProps sortBy filtered).drop offset).take limit
    let totalCount := filtered.length
    .results page (mkPagination totalCount limit offset)

/-! ### GET /properties/stats -/

/-- JS `Math.round`: round half toward positive infinity. -/
def jsRound (q : Rat) : Int := ⌊q + 1 / 2⌋

/-- SQL `AVG` over the non-null values of a column: NULL when no value
is present, otherwise the exact mean. -/
def sqlAvg (vals : List Rat) : Option Rat :=
  if vals.isEmpty then none else some (vals.sum / (vals.length : Rat))

/-- SQL `MIN` over the non-null values of a column. -/
def sqlMin (vals : List Rat) : Option Rat :=
  vals.foldr (fun v acc =>
    match acc with
    | none => some v
    | some w => some (min v w)) none

/-- SQL `MAX` over the non-null values of a column. -/
def sqlMax (vals : List Rat) : Option Rat :=
  vals.foldr (fun v acc =>
    match acc with
    | none => some v
    | some w => some (max v w)) none

/-- The single row returned by the aggregate query of
GET /properties/stats (`FROM properties WHERE rent_amount IS NOT
NULL`). -/
structure StatsRow where
  total_properties : Nat
  verified_properties : Nat
  avg_rent : Option Rat
  min_rent : Option Rat
  max_rent : Option Rat
  avg_bedrooms : Option Rat
  avg_bathrooms : Option Rat
  avg_sqft : Option Rat
  cities_count : Nat
  states_count : Nat
deriving DecidableEq, Repr

/-- The aggregate query of GET /properties/stats. -/
def statsQuery (props : List Property) : StatsRow :=
  let rows := props.filter (fun p => p.rent_amount.isSome)
  { total_properties := rows.length
    verified_properties := (rows.filter (fun p => p.landlord_verified)).length
    avg_rent := sqlAvg (rows.filterMap (fun p => p.rent_amount))
    min_rent := sqlMin (rows.filterMap (fun p => p.rent_amount))
    max_rent := sqlMax (rows.filterMap (fun p => p.rent_amount))
    avg_bedrooms :=
      sqlAvg (rows.filterMap (fun p => p.bedrooms.map (fun b => (b : Rat))))
    avg_bathrooms := sqlAvg (rows.filterMap (fun p => p.bathrooms))
    avg_sqft :=
      sqlAvg (rows.filterMap (fun p => p.square_feet.map (fun n => (n : Rat))))
    cities_count := (rows.map (fun p => p.city)).dedup.length
    states_count := (rows.map (fun p => p.state)).dedup.length }

/-- The conditional `stats.avg_x ? ... : null` of the stats handler.
node-pg delivers a SQL NUMERIC aggregate as a decimal string and a SQL
NULL as JS `null`: `null` is falsy and every decimal string is
non-empty hence truthy, so on these values JS truthiness is exactly
non-nullness. -/
def pgAggTruthy (v : Option Rat) : Bool := v.isSome

/-- The statistics object of the GET /properties/stats response body. -/
structure StatsResponse where
  total_properties : Nat
  verified_properties : Nat
  verification_rate : Int
  rent_average : Option Int
  rent_minimum : Option Rat
  rent_maximum : Option Rat
  avg_bedrooms : Option Rat
  avg_bathrooms : Option Rat
  avg_square_feet : Option Int
  cities : Nat
  states : Nat
deriving DecidableEq, Repr

/-- The GET /properties/stats handler on a successful query: shape the
aggregate row into the response object.  Each average goes through the
truthiness gate `pgAggTruthy` and a JS rounding: rent and square feet
to the nearest integer, bedrooms and bathrooms to one decimal. -/
def propertyStats (props : List Property) : StatsResponse :=
  let s := statsQuery props
  { total_properties := s.total_properties
    verified_properties := s.verified_properties
    verification_rate :=
      if 0 < s.total_properties then
        jsRound ((s.verified_properties : Rat) / (s.total_properties : Rat)
          * 100)
      else 0
    rent_average :=
      if pgAggTruthy s.avg_rent then (s.avg_rent.map jsRound) else none
    rent_minimum := if pgAggTruthy s.min_rent then s.min_rent else none
    rent_maximum := if pgAggTruthy s.max_rent then s.max_rent else none
    avg_bedrooms :=
      if pgAggTruthy s.avg_bedrooms then
        s.avg_bedrooms.map (fun q => ((jsRound (q * 10) : Rat) / 10))
      else none
    avg_bathrooms :=
      if pgAggTruthy s.avg_bathrooms then
        s.avg_bathrooms.map (fun q => ((jsRound (q * 10) : Rat) / 10))
      else none
    avg_square_feet :=
      if pgAggTruthy s.avg_sqft then s.avg_sqft.map jsRound else none
    cities := s.cities_count
    states := s.states_count }

/-! ## Helper lemmas -/

/-- A character whose code point is below 65 is fixed by
`Char.toLower`. -/
lemma toLower_eq_self_of_lt {c : Char} (h : c.toNat < 65) :
    c.toLower = c := by
  unfold Char.toLower
  rw [if_neg]
  omega

/-- Digits are fixed by `Char.toLower`. -/
lemma toLower_digit {c : Char} (h : isDigitChar c = true) : c.toLower = c := by
  unfold isDigitChar at h
  rw [Bool.and_eq_true, decide_eq_true_eq, decide_eq_true_eq] at h
  exact toLower_eq_self_of_lt (by omega)

/-- Mapping a function that fixes every element of a list is the
identity on it. -/
lemma map_eq_self_of_mem {α : Type} {l : List α} {f : α → α}
    (h : ∀ a ∈ l, f a = a) : l.map f = l := by
  induction l with
  | nil => rfl
  | cons a as ih =>
    simp only [List.map_cons]
    rw [h a (by simp), ih (fun x hx => h x (List.mem_cons_of_mem a hx))]

/-- Every character of a well-formed zip code is a digit or the
hyphen. -/
lemma zip_chars {s : String} (h : zipCodeOk s = true) :
    ∀ c ∈ s.data, isDigitChar c = true ∨ c = '-' := by
  unfold zipCodeOk at h
  intro c hc
  match hs : s.data with
  | [a, b, c0, d, e] =>
    rw [hs] at h hc
    simp only [List.all_cons, List.all_nil, Bool.and_eq_true, Bool.and_true,
      and_true, and_assoc] at h
    simp only [List.mem_cons, List.not_mem_nil, or_false] at hc
    obtain ⟨h1, h2, h3, h4, h5⟩ := h
    rcases hc with rfl | rfl | rfl | rfl | rfl
    · exact Or.inl h1
    · exact Or.inl h2
    · exact Or.inl h3
    · exact Or.inl h4
    · exact Or.inl h5
  | [a, b, c0, d, e, f, g, h0, i, j] =>
    rw [hs] at h hc
    simp only [List.all_cons, List.all_nil, Bool.and_eq_true, Bool.and_true,
      and_true, beq_iff_eq, and_assoc] at h
    obtain ⟨h1, h2, h3, h4, h5, hf, h7, h8, h9, h10⟩ := h
    simp only [List.mem_cons, List.not_mem_nil, or_false] at hc
    rcases hc with rfl | rfl | rfl | rfl | rfl | rfl | rfl | rfl | rfl | rfl
    · exact Or.inl h1
    · exact Or.inl h2
    · exact Or.inl h3
    · exact Or.inl h4
    · exact Or.inl h5
    · exact Or.inr hf
    · exact Or.inl h7
    · exact Or.inl h8
    · exact Or.inl h9
    · exact Or.inl h10
  | [] => rw [hs] at h; cases h
  | [a] => rw [hs] at h; cases h
  | [a, b] => rw [hs] at h; cases h
  | [a, b, c0] => rw [hs] at h; cases h
  | [a, b, c0, d] => rw [hs] at h; cases h
  | [a, b, c0, d, e, f] => rw [hs] at h; cases h
  | [a, b, c0, d, e, f, g] => rw [hs] at h; cases h
  | [a, b, c0, d, e, f, g, h0] => rw [hs] at h; cases h
  | [a, b, c0, d, e, f, g, h0, i] => rw [hs] at h; cases h
  | a :: b :: c0 :: d :: e :: f :: g :: h0 :: i :: j :: k :: rest =>
    rw [hs] at h; cases h

/-- A well-formed zip code is already lower case. -/
lemma lowerStr_zip {s : String} (h : zipCodeOk s = true) :
    lowerStr s = s := by
  unfold lowerStr
  conv_rhs => rw [show s = String.mk s.data from rfl]
  rw [map_eq_self_of_mem]
  intro c hc
  rcases zip_chars h c hc with hd | rfl
  · exact toLower_digit hd
  · exact toLower_eq_self_of_lt (by decide)

/-- Membership in an insertion. -/
lemma mem_insertLe {le : Property → Property → Bool} {x p : Property}
    {l : List Property} : p ∈ insertLe le x l ↔ p = x ∨ p ∈ l := by
  induction l with
  | nil => simp [insertLe]
  | cons q qs ih =>
    unfold insertLe
    split
    · simp [List.mem_cons]
    · simp only [List.mem_cons, ih]
      tauto

/-- Sorting by `le` never changes membership. -/
lemma mem_sortByLe {le : Property → Property → Bool} {p : Property}
    {l : List Property} : p ∈ sortByLe le l ↔ p ∈ l := by
  induction l with
  | nil => exact Iff.rfl
  | cons q qs ih =>
    unfold sortByLe
    rw [mem_insertLe, ih, List.mem_cons]

/-- Sorting never changes membership. -/
lemma mem_sortProps {p : Property} {s : String} {l : List Property} :
    p ∈ sortProps s l ↔ p ∈ l := by
  unfold sortProps
  split
  · exact mem_sortByLe
  split
  · exact mem_sortByLe
  split
  · exact mem_sortByLe
  split
  · exact mem_sortByLe
  split <;> exact mem_sortByLe

/-! ## Claims -/

/-- C1: the claim says GET /properties/stats is handled by the
statistics handler and answers 200 when the statistics query succeeds.
In the source the route `/properties/:id` is registered before
`/properties/stats`, so Express dispatches the request to the
get-by-id handler, where `parseInt("stats")` is NaN and the response
is 400 — the statistics handler is unreachable for its own path,
whatever the store contains.  This theorem evaluates the routing table
and the capturing handler at the failing input. -/
theorem c1_stats_route_shadowed :
    dispatch "GET" ["properties", "stats"] = some Route.getPropertyByIdRoute ∧
    Route.getPropertyByIdRoute ≠ Route.statsRoute ∧
    ∀ (props : List Property) (users : List User),
      getPropertyById props users "stats" = GetByIdResp.invalidId ∧
      (getPropertyById props users "stats").statusCode = 400 := by
  refine ⟨by decide, by decide, fun props users => ?_⟩
  have h : jsParseInt "stats" = none := by decide
  constructor
  · unfold getPropertyById
    rw [h]
  · unfold getPropertyById
    rw [h]
    rfl

/-- C10: in every successful search response, `has_next` is exactly
`current_page < total_pages` and `has_previous` is exactly
`current_page > 1`, for the `current_page` and `total_pages` of that
same response. -/
theorem c10_has_next_has_previous (props : List Property)
    (users : List User) (sp : SearchParams) (page : List Property)
    (pg : Pagination)
    (h : searchProperties props users sp = SearchResp.results page pg) :
    pg.has_next = decide (pg.current_page < pg.total_pages) ∧
    pg.has_previous = decide (1 < pg.current_page) := by
  unfold searchProperties at h
  by_cases hv : searchValid sp
  · rw [hv] at h
    simp only [Bool.not_true, Bool.false_eq_true, if_false,
      SearchResp.results.injEq] at h
    obtain ⟨-, rfl⟩ := h
    exact ⟨rfl, rfl⟩
  · rw [Bool.not_eq_true] at hv
    rw [hv] at h
    simp at h

/-- Concrete instantiation of `c10_has_next_has_previous`: the empty
search over an empty store. -/
theorem c10_has_next_has_previous_witness :
    (mkPagination 0 20 0).has_next =
      decide ((mkPagination 0 20 0).current_page <
        (mkPagination 0 20 0).total_pages) ∧
    (mkPagination 0 20 0).has_previous =
      decide (1 < (mkPagination 0 20 0).current_page) :=
  c10_has_next_has_previous [] []
    ⟨none, none, none, none, none, none, none, none, none, none, none,
      none, none, none, none⟩ [] (mkPagination 0 20 0) (by decide)

/-- Numeric string in the plain sense of the claim: an optional sign
followed by one or more decimal digits and nothing else. -/
def isNumericString (s : String) : Bool :=
  let ds := match s.data with
    | '-' :: rest => rest
    | '+' :: rest => rest
    | cs => cs
  !ds.isEmpty && ds.all isDigitChar

/-- Fixed store rows for concrete evaluations: a landlord user. -/
def uLandlord : User :=
  { id := 5, role := "landlord", first_name := "Ann", last_name := "Lee",
    email := "ann@example.com" }

/-- Fixed store rows for concrete evaluations: a property with id 12
owned by `uLandlord`. -/
def prop12 : Property :=
  { id := 12, address := "123 Main St", city := "Austin", state := "TX",
    zip_code := "78701", rent_amount := some 1500, bedrooms := some 2,
    bathrooms := some 1, square_feet := some 900, description := none,
    landlord_id := 5, landlord_verified := false, created_at := 0 }

/-- C7, counterexample: the claim says every request whose path
parameter is not a numeric string is answered 400.  The parameter
"12abc" is not a numeric string, yet JS `parseInt` extracts 12 from
it, so the handler queries the store and (here) answers 200. -/
theorem c7_nonnumeric_not_rejected_counterexample :
    isNumericString "12abc" = false ∧
    jsParseInt "12abc" = some 12 ∧
    getPropertyById [prop12] [uLandlord] "12abc" =
      GetByIdResp.found prop12 uLandlord ∧
    (getPropertyById [prop12] [uLandlord] "12abc").statusCode = 200 := by
  refine ⟨by decide, by decide, by decide, ?_⟩
  have h : getPropertyById [prop12] [uLandlord] "12abc" =
      GetByIdResp.found prop12 uLandlord := by decide
  rw [h]
  rfl

/-- C7, amended: the response is 400 exactly when JS `parseInt` yields
NaN on the path parameter (no leading integer numeral after optional
white space, sign and base marker); the store is consulted only in the
non-NaN case — when `parseInt` is NaN the outcome does not depend on
the store at all. -/
theorem c7_parseint_gate (props : List Property) (users : List User)
    (idStr : String) :
    (getPropertyById props users idStr = GetByIdResp.invalidId ↔
      jsParseInt idStr = none) ∧
    (jsParseInt idStr = none →
      ∀ (props2 : List Property) (users2 : List User),
        getPropertyById props2 users2 idStr = GetByIdResp.invalidId) := by
  constructor
  · unfold getPropertyById
    cases h : jsParseInt idStr with
    | none => simp
    | some n =>
      simp only [reduceCtorEq, iff_false]
      cases hp : props.find? (fun p => p.id == n) with
      | none => simp [hp]
      | some p =>
        cases hu : users.find? (fun u => u.id == p.landlord_id) with
        | none => simp [hu]
        | some u => simp [hu]
  · intro h props2 users2
    unfold getPropertyById
    rw [h]

/-- Concrete instantiation of `c7_parseint_gate` at the parameter
"stats" (NaN for `parseInt`), store non-empty. -/
theorem c7_parseint_gate_witness :
    getPropertyById [prop12] [uLandlord] "stats" = GetByIdResp.invalidId :=
  (c7_parseint_gate [prop12] [uLandlord] "stats").2 (by decide)
    [prop12] [uLandlord]

/-- Search parameters supplying only an equal rent pair. -/
def spRentEq : SearchParams :=
  { city := none, state := none, zip_code := none,
    min_rent := some 1000, max_rent := some 1000,
    min_bedrooms := none, max_bedrooms := none,
    min_bathrooms := none, max_bathrooms := none,
    min_sqft := none, max_sqft := none,
    landlord_verified := none, sort_by := none,
    limit := none, offset := none }

/-- C4, counterexample: the claim says validation accepts whenever
`max_* ≥ min_*`, equality included, for all four pairs.  For the rent
pair the Joi chain uses `.greater(ref)`, which is strict: the request
with `min_rent = max_rent = 1000` is rejected with 400, although both
per-field bounds hold. -/
theorem c4_rent_equality_rejected_counterexample :
    spRentEq.min_rent = some 1000 ∧ spRentEq.max_rent = some 1000 ∧
    searchFieldBoundsOk spRentEq = true ∧
    searchValid spRentEq = false ∧
    searchProperties [prop12] [uLandlord] spRentEq =
      SearchResp.invalidParams ∧
    SearchResp.invalidParams.statusCode = 400 := by
  refine ⟨rfl, rfl, by decide, by decide, by decide, rfl⟩

/-- C4, amended: given per-field bounds, validation accepts exactly
when every supplied `max_*` has its `min_*` supplied too (a maximum
whose reference minimum is absent fails Joi's ref rule) and the pair
comparisons hold: `max_bedrooms ≥ min_bedrooms`,
`max_bathrooms ≥ min_bathrooms` and `max_sqft ≥ min_sqft`, but
`max_rent > min_rent` STRICTLY; in particular every `max_* < min_*`
is rejected, and so is `max_rent = min_rent`.  A rejected request is
answered 400 whatever the store contains, i.e. before any store
query. -/
theorem c4_range_validation (sp : SearchParams)
    (hb : searchFieldBoundsOk sp = true) :
    (searchValid sp = true ↔
      ((∀ b, sp.max_rent = some b →
          ∃ a, sp.min_rent = some a ∧ a < b) ∧
       (∀ b, sp.max_bedrooms = some b →
          ∃ a, sp.min_bedrooms = some a ∧ a ≤ b) ∧
       (∀ b, sp.max_bathrooms = some b →
          ∃ a, sp.min_bathrooms = some a ∧ a ≤ b) ∧
       (∀ b, sp.max_sqft = some b →
          ∃ a, sp.min_sqft = some a ∧ a ≤ b))) ∧
    (searchValid sp = false →
      ∀ (props : List Property) (users : List User),
        searchProperties props users sp = SearchResp.invalidParams) := by
  constructor
  · unfold searchValid rangePairsOk
    rw [hb, Bool.true_and, Bool.and_eq_true, Bool.and_eq_true,
      Bool.and_eq_true, and_assoc, and_assoc]
    apply and_congr
    · unfold pairStrictlyGreater
      cases sp.min_rent <;> cases sp.max_rent <;> simp
    apply and_congr
    · unfold pairAtLeast
      cases sp.min_bedrooms <;> cases sp.max_bedrooms <;> simp
    apply and_congr
    · unfold pairAtLeast
      cases sp.min_bathrooms <;> cases sp.max_bathrooms <;> simp
    · unfold pairAtLeast
      cases sp.min_sqft <;> cases sp.max_sqft <;> simp
  · intro hinvalid props users
    unfold searchProperties
    rw [hinvalid]
    rfl

/-- Concrete instantiation of `c4_range_validation`: the equal-rent
request is invalid, hence 400 whatever the store holds. -/
theorem c4_range_validation_witness :
    searchProperties [prop12] [uLandlord] spRentEq =
      SearchResp.invalidParams :=
  (c4_range_validation spRentEq (by decide)).2 (by decide)
    [prop12] [uLandlord]

/-- The integer formula the handler uses for `Math.ceil(t / l)` agrees
with the mathematical ceiling of the exact quotient. -/
lemma ceil_formula (t l : Nat) (hl : 0 < l) :
    ⌈(t : ℚ) / (l : ℚ)⌉₊ = (t + l - 1) / l := by
  apply le_antisymm
  · rw [Nat.ceil_le, div_le_iff₀ (by exact_mod_cast hl)]
    have ht : t ≤ (t + l - 1) / l * l := by
      rw [Nat.mul_comm]
      have h1 := Nat.div_add_mod (t + l - 1) l
      have h2 := Nat.mod_lt (t + l - 1) hl
      omega
    exact_mod_cast Nat.cast_le.mpr ht
  · rw [Nat.div_le_iff_le_mul_add_pred hl]
    have hc : (t : ℚ) / l ≤ (⌈(t : ℚ) / l⌉₊ : ℚ) := Nat.le_ceil _
    rw [div_le_iff₀ (by exact_mod_cast hl)] at hc
    have ht : t ≤ ⌈(t : ℚ) / (l : ℚ)⌉₊ * l := by exact_mod_cast hc
    rw [Nat.mul_comm] at ht
    omega

/-- The natural division the handler uses for
`Math.floor(offset / limit)` agrees with the mathematical floor of the
exact quotient. -/
lemma floor_formula (o l : Nat) : ⌊(o : ℚ) / (l : ℚ)⌋₊ = o / l :=
  Nat.floor_div_eq_div o l

/-- C3: in every successful search response, `total_pages` is the
ceiling of `total_count / limit` and `current_page` is the floor of
`offset / limit` plus one, where `limit` (1–100, default 20) and
`offset` (≥ 0, default 0) are the validated values echoed in the same
pagination block. -/
theorem c3_pagination_formulas (props : List Property)
    (users : List User) (sp : SearchParams) (page : List Property)
    (pg : Pagination)
    (h : searchProperties props users sp = SearchResp.results page pg) :
    pg.total_pages = ⌈(pg.total_count : ℚ) / (pg.limit : ℚ)⌉₊ ∧
    pg.current_page = ⌊(pg.offset : ℚ) / (pg.limit : ℚ)⌋₊ + 1 ∧
    1 ≤ pg.limit ∧ pg.limit ≤ 100 := by
  unfold searchProperties at h
  by_cases hv : searchValid sp
  · rw [hv] at h
    simp only [Bool.not_true, Bool.false_eq_true, if_false,
      SearchResp.results.injEq] at h
    obtain ⟨-, rfl⟩ := h
    have hb : searchFieldBoundsOk sp = true := by
      unfold searchValid at hv
      exact (Bool.and_eq_true _ _).mp hv |>.1
    have hlimit : (match sp.limit with
        | none => true
        | some l => decide (1 ≤ l) && decide (l ≤ 100)) = true := by
      unfold searchFieldBoundsOk at hb
      rw [Bool.and_eq_true] at hb
      exact hb.2
    have hlim : 1 ≤ sp.limit.getD 20 ∧ sp.limit.getD 20 ≤ 100 := by
      cases hsl : sp.limit with
      | none => simp
      | some l =>
        rw [hsl] at hlimit
        simp only [Bool.and_eq_true, decide_eq_true_eq] at hlimit
        simpa using hlimit
    have hpos : 0 < sp.limit.getD 20 := hlim.1
    refine ⟨?_, ?_, hlim.1, hlim.2⟩
    · exact (ceil_formula _ _ hpos).symm
    · exact congrArg (fun n => n + 1) (floor_formula _ _).symm
  · rw [Bool.not_eq_true] at hv
    rw [hv] at h
    simp at h

/-- Concrete instantiation of `c3_pagination_formulas`: search over a
one-row store with the default limit and offset. -/
theorem c3_pagination_formulas_witness :
    (mkPagination 1 20 0).total_pages =
      ⌈((mkPagination 1 20 0).total_count : ℚ) /
        ((mkPagination 1 20 0).limit : ℚ)⌉₊ ∧
    (mkPagination 1 20 0).current_page =
      ⌊((mkPagination 1 20 0).offset : ℚ) /
        ((mkPagination 1 20 0).limit : ℚ)⌋₊ + 1 ∧
    1 ≤ (mkPagination 1 20 0).limit ∧ (mkPagination 1 20 0).limit ≤ 100 :=
  c3_pagination_formulas [prop12] [uLandlord]
    ⟨none, none, none, none, none, none, none, none, none, none, none,
      none, none, none, none⟩ [prop12] (mkPagination 1 20 0) (by decide)

/-- A lone `%` pattern matches every string. -/
lemma likeMatch_percent (s : List Char) : likeMatch ['%'] s = true := by
  induction s with
  | nil => simp [likeMatch]
  | cons c cs ih => rw [likeMatch]; simp [ih]

/-- The pattern `%%` (empty search term) matches every string. -/
lemma likeMatch_two_percent (s : List Char) :
    likeMatch ['%', '%'] s = true := by
  cases s with
  | nil => simp [likeMatch]
  | cons c cs => rw [likeMatch]; simp [likeMatch_percent]

/-- The empty city term matches every row. -/
lemma cityCond_empty (p : Property) : cityCond "" p = true := by
  unfold cityCond
  exact likeMatch_two_percent _

/-- Unfolding the optional-minimum guard of the WHERE clause. -/
lemma minGuard_iff {α : Type} [le : LE α] [DecidableRel (@LE.le α le)]
    {mo col : Option α} :
    minGuard mo col = true ↔
      ∀ v, mo = some v → ∃ x, col = some x ∧ v ≤ x := by
  unfold minGuard
  cases mo with
  | none => simp
  | some v => cases col <;> simp [sqlGe]

/-- Unfolding the optional-maximum guard of the WHERE clause. -/
lemma maxGuard_iff {α : Type} [le : LE α] [DecidableRel (@LE.le α le)]
    {mo col : Option α} :
    maxGuard mo col = true ↔
      ∀ v, mo = some v → ∃ x, col = some x ∧ x ≤ v := by
  unfold maxGuard
  cases mo with
  | none => simp
  | some v => cases col <;> simp [sqlLe]

/-- Unfolding the boolean-equality guard of the WHERE clause. -/
lemma boolGuard_iff {mo : Option Bool} {b : Bool} :
    boolGuard mo b = true ↔ ∀ v, mo = some v → b = v := by
  unfold boolGuard
  cases mo <;> simp

/-- Unfolding the city guard of the WHERE clause. -/
lemma cityGuard_iff {mo : Option String} {p : Property} :
    cityGuard mo p = true ↔ ∀ c, mo = some c → cityCond c p = true := by
  unfold cityGuard
  cases mo with
  | none => simp
  | some c =>
    cases hc : c.data.isEmpty with
    | false => simp [hc]
    | true =>
      have hcn : c = "" := by
        obtain ⟨l⟩ := c
        cases l with
        | nil => decide
        | cons a as => simp at hc
      subst hcn
      simp [cityCond_empty]

/-- Unfolding the state guard of the WHERE clause (the term is known
non-empty from validation). -/
lemma stateGuard_iff {mo : Option String} {p : Property}
    (hne : ∀ s, mo = some s → s.data ≠ []) :
    stateGuard mo p = true ↔
      ∀ s, mo = some s → lowerStr p.state = lowerStr s := by
  unfold stateGuard
  cases mo with
  | none => simp
  | some s =>
    have h := hne s rfl
    simp [List.isEmpty_iff, h]

/-- Unfolding the zip guard of the WHERE clause (the zip is known
non-empty from validation). -/
lemma zipGuard_iff {mo : Option String} {p : Property}
    (hne : ∀ z, mo = some z → z.data ≠ []) :
    zipGuard mo p = true ↔ ∀ z, mo = some z → p.zip_code = z := by
  unfold zipGuard
  cases mo with
  | none => simp
  | some z =>
    have h := hne z rfl
    simp [List.isEmpty_iff, h]

/-- Conjunction of exactly the conditions corresponding to supplied
search parameters, written in the claim's terms: each supplied filter
must hold of the row (a range condition on a nullable column requires
the value to be present), and an absent parameter contributes
nothing. -/
def FilterSpec (sp : SearchParams) (p : Property) : Prop :=
  (∀ c, sp.city = some c → cityCond c p = true) ∧
  (∀ s, sp.state = some s → lowerStr p.state = lowerStr s) ∧
  (∀ z, sp.zip_code = some z → p.zip_code = z) ∧
  (∀ v, sp.min_rent = some v → ∃ x, p.rent_amount = some x ∧ v ≤ x) ∧
  (∀ v, sp.max_rent = some v → ∃ x, p.rent_amount = some x ∧ x ≤ v) ∧
  (∀ v, sp.min_bedrooms = some v → ∃ x, p.bedrooms = some x ∧ v ≤ x) ∧
  (∀ v, sp.max_bedrooms = some v → ∃ x, p.bedrooms = some x ∧ x ≤ v) ∧
  (∀ v, sp.min_bathrooms = some v → ∃ x, p.bathrooms = some x ∧ v ≤ x) ∧
  (∀ v, sp.max_bathrooms = some v → ∃ x, p.bathrooms = some x ∧ x ≤ v) ∧
  (∀ v, sp.min_sqft = some v → ∃ x, p.square_feet = some x ∧ v ≤ x) ∧
  (∀ v, sp.max_sqft = some v → ∃ x, p.square_feet = some x ∧ x ≤ v) ∧
  (∀ b, sp.landlord_verified = some b → p.landlord_verified = b)

/-- Extraction of the per-field facts needed from
`searchFieldBoundsOk`. -/
lemma bounds_components {sp : SearchParams}
    (hb : searchFieldBoundsOk sp = true) :
    (∀ s, sp.state = some s → 2 ≤ s.length) ∧
    (∀ z, sp.zip_code = some z → zipCodeOk z = true) := by
  unfold searchFieldBoundsOk at hb
  simp only [Bool.and_eq_true] at hb
  obtain ⟨⟨⟨⟨⟨⟨⟨⟨⟨⟨⟨⟨h1, h2⟩, h3⟩, h4⟩, h5⟩, h6⟩, h7⟩, h8⟩, h9⟩, h10⟩,
    h11⟩, h12⟩, h13⟩ := hb
  constructor
  · intro s hs
    rw [hs] at h2
    simp only [Bool.and_eq_true, decide_eq_true_eq] at h2
    exact h2.1
  · intro z hz
    rw [hz] at h3
    exact h3

/-- A well-formed zip code is not the empty string. -/
lemma zip_ne_nil {z : String} (h : zipCodeOk z = true) : z.data ≠ [] := by
  intro heq
  unfold zipCodeOk at h
  rw [heq] at h
  cases h

/-- The WHERE clause holds of a row exactly when every supplied filter
condition holds of it, provided the request passed validation. -/
lemma rowMatches_iff_filterSpec {sp : SearchParams} {p : Property}
    (hv : searchValid sp = true) :
    rowMatches sp p = true ↔ FilterSpec sp p := by
  have hb : searchFieldBoundsOk sp = true :=
    ((Bool.and_eq_true _ _).mp hv).1
  obtain ⟨hstate, hzip⟩ := bounds_components hb
  have hsne : ∀ s, sp.state = some s → s.data ≠ [] := by
    intro s hs heq
    have h2 := hstate s hs
    apply absurd h2
    obtain ⟨l⟩ := s
    have hl : l = [] := heq
    subst hl
    decide
  have hzne : ∀ z, sp.zip_code = some z → z.data ≠ [] :=
    fun z hz => zip_ne_nil (hzip z hz)
  unfold rowMatches FilterSpec
  simp only [Bool.and_eq_true]
  rw [cityGuard_iff, stateGuard_iff hsne, zipGuard_iff hzne,
    minGuard_iff, maxGuard_iff, minGuard_iff, maxGuard_iff, minGuard_iff,
    maxGuard_iff, minGuard_iff, maxGuard_iff, boolGuard_iff]
  simp only [and_assoc]

/-- C2: every successful search response is filtered by the
conjunction of exactly the conditions of the supplied parameters:
every returned row satisfies every supplied filter; a row satisfies
the WHERE clause exactly when it satisfies the supplied conditions (so
an omitted parameter contributes no condition); and when no rent bound
is supplied the outcome for a row does not depend on its
`rent_amount` at all — in particular rows with a null rent are not
excluded. -/
theorem c2_conjunctive_filters (props : List Property)
    (users : List User) (sp : SearchParams) (page : List Property)
    (pg : Pagination)
    (h : searchProperties props users sp = SearchResp.results page pg) :
    (∀ p ∈ page, FilterSpec sp p) ∧
    (∀ p : Property, rowMatches sp p = true ↔ FilterSpec sp p) ∧
    (sp.min_rent = none → sp.max_rent = none →
      ∀ (p : Property) (x : Option Rat),
        rowMatches sp p = rowMatches sp { p with rent_amount := x }) := by
  unfold searchProperties at h
  by_cases hv : searchValid sp
  · rw [hv] at h
    simp only [Bool.not_true, Bool.false_eq_true, if_false,
      SearchResp.results.injEq] at h
    obtain ⟨hpage, -⟩ := h
    refine ⟨?_, fun p => rowMatches_iff_filterSpec hv, ?_⟩
    · intro p hp
      rw [← hpage] at hp
      have h1 : p ∈ sortProps (sp.sort_by.getD "newest")
          (List.filter (rowMatches sp)
            (List.filter
              (fun q => (users.find? (fun u => u.id == q.landlord_id)).isSome)
              props)) :=
        List.mem_of_mem_drop (List.mem_of_mem_take hp)
      have h2 := mem_sortProps.mp h1
      have h3 := (List.mem_filter.mp h2).2
      exact (rowMatches_iff_filterSpec hv).mp h3
    · intro h1 h2 p x
      unfold rowMatches
      rw [h1, h2]
      rfl
  · rw [Bool.not_eq_true] at hv
    rw [hv] at h
    simp at h

/-- Search parameters supplying only `min_bedrooms = 2`. -/
def spMinBed : SearchParams :=
  { city := none, state := none, zip_code := none,
    min_rent := none, max_rent := none,
    min_bedrooms := some 2, max_bedrooms := none,
    min_bathrooms := none, max_bathrooms := none,
    min_sqft := none, max_sqft := none,
    landlord_verified := none, sort_by := none,
    limit := none, offset := none }

/-- Concrete instantiation of `c2_conjunctive_filters`: the search
with `min_bedrooms = 2` over a one-row store returns `prop12`, which
satisfies every supplied condition. -/
theorem c2_conjunctive_filters_witness : FilterSpec spMinBed prop12 :=
  (c2_conjunctive_filters [prop12] [uLandlord] spMinBed [prop12]
    (mkPagination 1 20 0) (by decide)).1 prop12 (by decide)

/-- C6: for every create request that passes body validation the
handler short-circuits in order: no users row with the given
`landlord_id` gives 404, and an existing row whose role is not
"landlord" gives 403 — which is not 201 — and in both cases the
properties table is left unchanged (no row inserted). -/
theorem c6_landlord_gate (users : List User) (props : List Property)
    (nextId now : Int) (req : CreateReq)
    (hv : createValid req = true) :
    ((∀ u ∈ users, u.id ≠ req.landlord_id) →
      createProperty users props nextId now req =
        (CreateResp.landlordNotFound, props) ∧
      CreateResp.landlordNotFound.statusCode = 404) ∧
    (∀ u, users.find? (fun x => x.id == req.landlord_id) = some u →
      u.role ≠ "landlord" →
      createProperty users props nextId now req =
        (CreateResp.invalidRole, props) ∧
      CreateResp.invalidRole.statusCode = 403 ∧
      ∀ p : Property, CreateResp.invalidRole ≠ CreateResp.created p) := by
  constructor
  · intro h
    refine ⟨?_, rfl⟩
    have hfind : users.find? (fun u => u.id == req.landlord_id) = none :=
      List.find?_eq_none.mpr (fun x hx => by simp [h x hx])
    unfold createProperty createPropertyRun
    simp only [hv, hfind, Bool.not_true, Bool.false_eq_true, if_false]
  · intro u hfind hrole
    have hr : (u.role != "landlord") = true := by
      simp [bne_iff_ne, hrole]
    refine ⟨?_, rfl, fun p hcon => CreateResp.noConfusion hcon⟩
    unfold createProperty createPropertyRun
    simp only [hv, hfind, hr, Bool.not_true, Bool.false_eq_true, if_false,
      if_true]

/-- Fixed request for concrete evaluations: a valid body whose
`landlord_id` is 9. -/
def reqTo9 : CreateReq :=
  { address := "45 Oak Street", city := "Austin", state := "TX",
    zip_code := "78702", rent_amount := some 1200, bedrooms := some 1,
    bathrooms := some 1, square_feet := some 600, description := none,
    landlord_id := 9 }

/-- Fixed store rows for concrete evaluations: a tenant user with
id 9. -/
def uTenant9 : User :=
  { id := 9, role := "tenant", first_name := "Bob", last_name := "Kim",
    email := "bob@example.com" }

/-- Concrete instantiation of `c6_landlord_gate`: creating with a
tenant `landlord_id` yields 403 and inserts nothing. -/
theorem c6_landlord_gate_witness :
    createProperty [uTenant9] [] 1 0 reqTo9 =
      (CreateResp.invalidRole, []) ∧
    CreateResp.invalidRole.statusCode = 403 ∧
    ∀ p : Property, CreateResp.invalidRole ≠ CreateResp.created p :=
  (c6_landlord_gate [uTenant9] [] 1 0 reqTo9 (by decide)).2 uTenant9
    (by decide) (by decide)

/-- Fixed request for concrete evaluations: a valid body whose
`landlord_id` is 5 (the id of `uLandlord`). -/
def reqOk5 : CreateReq :=
  { address := "77 Pine Road", city := "Austin", state := "TX",
    zip_code := "78703", rent_amount := some 1800, bedrooms := some 3,
    bathrooms := some 2, square_feet := some 1200, description := none,
    landlord_id := 5 }

/-- C8: a foreign-key violation (Postgres code 23503) thrown by the
store during the insert is answered 400 with error
"Invalid landlord_id", never 500; any store failure during the create
handler whose code is not 23503 — at the landlord check, the duplicate
check, or the insert — is answered 500.  In every failure case the
properties table is unchanged. -/
theorem c8_fk_violation_mapping (users : List User)
    (props : List Property) (nextId now : Int) (req : CreateReq)
    (e : DBErr) (hv : createValid req = true) :
    ((∃ u, users.find? (fun x => x.id == req.landlord_id) = some u ∧
        u.role = "landlord") →
      props.find? (dupMatches req) = none →
      e.code = some "23503" →
      createPropertyRun (StoreFault.failInsert e) users props nextId now
          req = (CreateResp.invalidLandlordId, props) ∧
      CreateResp.invalidLandlordId.statusCode = 400 ∧
      CreateResp.invalidLandlordId.errorField = some "Invalid landlord_id") ∧
    (e.code ≠ some "23503" →
      createPropertyRun (StoreFault.failLandlordCheck e) users props
          nextId now req = (CreateResp.internalError, props) ∧
      ((∃ u, users.find? (fun x => x.id == req.landlord_id) = some u ∧
          u.role = "landlord") →
        createPropertyRun (StoreFault.failDuplicateCheck e) users props
            nextId now req = (CreateResp.internalError, props) ∧
        (props.find? (dupMatches req) = none →
          createPropertyRun (StoreFault.failInsert e) users props nextId
              now req = (CreateResp.internalError, props))) ∧
      CreateResp.internalError.statusCode = 500) := by
  constructor
  · rintro ⟨u, hfind, hrole⟩ hdup hcode
    refine ⟨?_, rfl, rfl⟩
    have hr : (u.role != "landlord") = false := by
      simp [bne_iff_ne, hrole]
    have hcatch : createCatch e = CreateResp.invalidLandlordId := by
      unfold createCatch
      rw [hcode]
      rfl
    unfold createPropertyRun
    simp only [hv, hfind, hr, hdup, hcatch, Bool.not_true,
      Bool.false_eq_true, if_false]
  · intro hcode
    have hcatch : createCatch e = CreateResp.internalError := by
      unfold createCatch
      have : (e.code == some "23503") = false := by
        simp [hcode]
      rw [this]
      rfl
    refine ⟨?_, ?_, rfl⟩
    · unfold createPropertyRun
      simp only [hv, hcatch, Bool.not_true, Bool.false_eq_true, if_false]
    · rintro ⟨u, hfind, hrole⟩
      have hr : (u.role != "landlord") = false := by
        simp [bne_iff_ne, hrole]
      constructor
      · unfold createPropertyRun
        simp only [hv, hfind, hr, hcatch, Bool.not_true,
          Bool.false_eq_true, if_false]
      · intro hdup
        unfold createPropertyRun
        simp only [hv, hfind, hr, hdup, hcatch, Bool.not_true,
          Bool.false_eq_true, if_false]

/-- Concrete instantiation of `c8_fk_violation_mapping`: an insert
hitting a foreign-key violation is answered 400 Invalid landlord_id, a
landlord-check failure with another code is answered 500. -/
theorem c8_fk_violation_mapping_witness :
    (createPropertyRun (StoreFault.failInsert ⟨some "23503"⟩) [uLandlord]
        [] 1 0 reqOk5 = (CreateResp.invalidLandlordId, []) ∧
      CreateResp.invalidLandlordId.statusCode = 400 ∧
      CreateResp.invalidLandlordId.errorField =
        some "Invalid landlord_id") ∧
    createPropertyRun (StoreFault.failLandlordCheck ⟨some "XX000"⟩)
        [uLandlord] [] 1 0 reqOk5 = (CreateResp.internalError, []) :=
  ⟨(c8_fk_violation_mapping [uLandlord] [] 1 0 reqOk5 ⟨some "23503"⟩
      (by decide)).1 ⟨uLandlord, by decide, rfl⟩ (by decide) rfl,
    ((c8_fk_violation_mapping [uLandlord] [] 1 0 reqOk5 ⟨some "XX000"⟩
      (by decide)).2 (by decide)).1⟩

/-- Two rows collide when both address and zip code agree
case-insensitively. -/
def ciDup (p q : Property) : Prop :=
  lowerStr p.address = lowerStr q.address ∧
  lowerStr p.zip_code = lowerStr q.zip_code

/-- Invariant of the properties table: no two rows collide
case-insensitively on (address, zip_code), and every stored zip code
is well-formed (which every row written by the create endpoint is,
since its body passed validation). -/
def PropsInv (props : List Property) : Prop :=
  props.Pairwise (fun p q => ¬ ciDup p q) ∧
  ∀ p ∈ props, zipCodeOk p.zip_code = true

/-- One invocation of the create endpoint: the users table it sees and
the store-chosen id and timestamp, along with the request body. -/
structure CreateStep where
  users : List User
  nextId : Int
  now : Int
  req : CreateReq

/-- The properties table produced by a sequence of create requests. -/
def runCreates (steps : List CreateStep) (props : List Property) :
    List Property :=
  steps.foldl
    (fun pr s => (createProperty s.users pr s.nextId s.now s.req).2) props

/-- A body that passes validation carries a well-formed zip code. -/
lemma createValid_zip {req : CreateReq} (hv : createValid req = true) :
    zipCodeOk req.zip_code = true := by
  unfold createValid at hv
  simp only [Bool.and_eq_true] at hv
  exact hv.1.1.1.1.1.2

/-- One create request preserves the table invariant. -/
lemma create_preserves_inv (users : List User) (props : List Property)
    (nextId now : Int) (req : CreateReq) (hinv : PropsInv props) :
    PropsInv (createProperty users props nextId now req).2 := by
  unfold createProperty createPropertyRun
  by_cases hv : createValid req = true
  · cases hfind : users.find? (fun u => u.id == req.landlord_id) with
    | none => simpa [hv, hfind] using hinv
    | some u =>
      by_cases hrole : (u.role != "landlord") = true
      · simpa [hv, hfind, hrole] using hinv
      · rw [Bool.not_eq_true] at hrole
        cases hdup : props.find? (dupMatches req) with
        | some p => simpa [hv, hfind, hrole, hdup] using hinv
        | none =>
          have hrz : zipCodeOk req.zip_code = true := createValid_zip hv
          simp only [hv, hfind, hrole, hdup, Bool.not_true,
            Bool.false_eq_true, if_false]
          constructor
          · rw [List.pairwise_append]
            refine ⟨hinv.1, List.pairwise_singleton _ _, ?_⟩
            intro q hq b hb hcon
            simp only [List.mem_singleton] at hb
            subst hb
            obtain ⟨ha, hz⟩ := hcon
            have hqz : zipCodeOk q.zip_code = true := hinv.2 q hq
            rw [lowerStr_zip hqz, lowerStr_zip hrz] at hz
            have hnone := List.find?_eq_none.mp hdup q hq
            apply hnone
            unfold dupMatches
            rw [Bool.and_eq_true, beq_iff_eq, beq_iff_eq]
            exact ⟨ha, hz⟩
          · intro p hp
            rcases List.mem_append.mp hp with h | h
            · exact hinv.2 p h
            · simp only [List.mem_singleton] at h
              subst h
              exact hrz
  · rw [Bool.not_eq_true] at hv
    simpa [hv] using hinv

/-- C5: every properties table reachable from an empty one through
this service's create endpoint satisfies the invariant that no two
rows share the same (address, zip_code) pair case-insensitively; and
in any state satisfying the invariant, a create request (past
validation and the landlord gate) whose address and zip code match an
existing row case-insensitively is answered 409 carrying that
conflicting row's id, with no row inserted. -/
theorem c5_no_ci_duplicates :
    (∀ steps : List CreateStep, PropsInv (runCreates steps [])) ∧
    (∀ (users : List User) (props : List Property) (nextId now : Int)
      (req : CreateReq),
      PropsInv props → createValid req = true →
      (∃ u, users.find? (fun x => x.id == req.landlord_id) = some u ∧
        u.role = "landlord") →
      (∃ q ∈ props, lowerStr q.address = lowerStr req.address ∧
        lowerStr q.zip_code = lowerStr req.zip_code) →
      ∃ ex ∈ props,
        lowerStr ex.address = lowerStr req.address ∧
        lowerStr ex.zip_code = lowerStr req.zip_code ∧
        createProperty users props nextId now req =
          (CreateResp.conflict ex.id, props)) := by
  constructor
  · intro steps
    suffices h : ∀ props, PropsInv props → PropsInv (runCreates steps props) by
      exact h [] ⟨List.Pairwise.nil, by simp⟩
    induction steps with
    | nil => intro props h; exact h
    | cons s ss ih =>
      intro props h
      exact ih _ (create_preserves_inv s.users props s.nextId s.now s.req h)
  · intro users props nextId now req hinv hv hgate hdup
    obtain ⟨u, hfind, hrole⟩ := hgate
    obtain ⟨q, hq, hqa, hqz⟩ := hdup
    have hqzip : zipCodeOk q.zip_code = true := hinv.2 q hq
    have hrzip : zipCodeOk req.zip_code = true := createValid_zip hv
    rw [lowerStr_zip hqzip, lowerStr_zip hrzip] at hqz
    have hdm : dupMatches req q = true := by
      unfold dupMatches
      rw [Bool.and_eq_true, beq_iff_eq, beq_iff_eq]
      exact ⟨hqa, hqz⟩
    have hsome : (props.find? (dupMatches req)).isSome :=
      List.find?_isSome.mpr ⟨q, hq, hdm⟩
    obtain ⟨ex, hexq⟩ := Option.isSome_iff_exists.mp hsome
    have hexmem := List.mem_of_find?_eq_some hexq
    have hexdm := List.find?_some hexq
    unfold dupMatches at hexdm
    rw [Bool.and_eq_true, beq_iff_eq, beq_iff_eq] at hexdm
    refine ⟨ex, hexmem, hexdm.1, ?_, ?_⟩
    · rw [lowerStr_zip (hinv.2 ex hexmem), lowerStr_zip hrzip]
      exact hexdm.2
    · have hr : (u.role != "landlord") = false := by
        simp [bne_iff_ne, hrole]
      unfold createProperty createPropertyRun
      simp only [hv, hfind, hr, hexq, Bool.not_true, Bool.false_eq_true,
        if_false]

/-- Fixed store row for concrete evaluations: a property whose address
is upper-cased relative to the duplicate request below. -/
def pEx : Property :=
  { id := 1, address := "123 MAIN St", city := "Austin", state := "TX",
    zip_code := "78701", rent_amount := some 1500, bedrooms := some 2,
    bathrooms := some 1, square_feet := some 900, description := none,
    landlord_id := 5, landlord_verified := false, created_at := 0 }

/-- Fixed request for concrete evaluations: the same address as `pEx`
up to case, same zip code. -/
def reqDup : CreateReq :=
  { address := "123 main st", city := "Austin", state := "TX",
    zip_code := "78701", rent_amount := some 1600, bedrooms := some 2,
    bathrooms := some 1, square_feet := some 900, description := none,
    landlord_id := 5 }

/-- Concrete instantiation of the 409 part of `c5_no_ci_duplicates`:
re-creating `pEx` with a differently cased address yields 409 with the
existing id and leaves the table unchanged. -/
theorem c5_no_ci_duplicates_witness :
    ∃ ex ∈ [pEx],
      lowerStr ex.address = lowerStr reqDup.address ∧
      lowerStr ex.zip_code = lowerStr reqDup.zip_code ∧
      createProperty [uLandlord] [pEx] 2 0 reqDup =
        (CreateResp.conflict ex.id, [pEx]) :=
  c5_no_ci_duplicates.2 [uLandlord] [pEx] 2 0 reqDup
    ⟨List.pairwise_singleton _ _, by decide⟩ (by decide)
    ⟨uLandlord, by decide, rfl⟩ ⟨pEx, by decide, by decide, by decide⟩

/-- SQL `AVG` is NULL exactly on an empty value list. -/
lemma sqlAvg_eq_none_iff (vals : List Rat) :
    sqlAvg vals = none ↔ vals = [] := by
  unfold sqlAvg
  cases vals <;> simp

/-- SQL `AVG` of a non-empty value list is the exact mean. -/
lemma sqlAvg_eq_some (vals : List Rat) (h : vals ≠ []) :
    sqlAvg vals = some (vals.sum / (vals.length : Rat)) := by
  unfold sqlAvg
  rw [if_neg]
  simp [List.isEmpty_iff, h]

/-- The truthiness-gated post-processing of an aggregate is `null`
exactly when the aggregate is NULL. -/
lemma truthy_map_eq_none_iff {α : Type} (v : Option Rat) (g : Rat → α) :
    (if pgAggTruthy v then v.map g else none) = none ↔ v = none := by
  unfold pgAggTruthy
  cases v <;> simp

/-- The truthiness-gated post-processing of a present aggregate value
applies the rounding. -/
lemma truthy_map_of_some {α : Type} {v : Option Rat} (g : Rat → α)
    {q : Rat} (h : v = some q) :
    (if pgAggTruthy v then v.map g else none) = some (g q) := by
  subst h
  rfl

/-- A filterMap over rows is empty exactly when the selected column is
NULL in every row. -/
lemma filterMap_opt_eq_nil_iff {α : Type} (rows : List Property)
    (f : Property → Option α) :
    rows.filterMap f = [] ↔ ∀ p ∈ rows, f p = none := by
  rw [List.filterMap_eq_nil_iff]

/-- C9: in every statistics response, each average field is `null`
exactly when the underlying data is absent among the rows with a
non-null `rent_amount` (no such row for the rent average; the relevant
column NULL in all such rows for the feature averages), and otherwise
it equals the rounded exact average — in particular an average of 0
over present data is reported as 0, not `null`, because node-pg hands
the aggregate over as a non-empty (truthy) decimal string. -/
theorem c9_stats_null_safety (props : List Property) :
    ((propertyStats props).rent_average = none ↔
      props.filter (fun p => p.rent_amount.isSome) = []) ∧
    (∀ l, (props.filter (fun p => p.rent_amount.isSome)).filterMap
        (fun p => p.rent_amount) = l → l ≠ [] →
      (propertyStats props).rent_average =
        some (jsRound (l.sum / (l.length : Rat)))) ∧
    ((propertyStats props).avg_bedrooms = none ↔
      ∀ p ∈ props.filter (fun p => p.rent_amount.isSome),
        p.bedrooms = none) ∧
    (∀ l, (props.filter (fun p => p.rent_amount.isSome)).filterMap
        (fun p => p.bedrooms.map (fun b => (b : Rat))) = l → l ≠ [] →
      (propertyStats props).avg_bedrooms =
        some ((jsRound ((l.sum / (l.length : Rat)) * 10) : Rat) / 10)) ∧
    ((propertyStats props).avg_bathrooms = none ↔
      ∀ p ∈ props.filter (fun p => p.rent_amount.isSome),
        p.bathrooms = none) ∧
    (∀ l, (props.filter (fun p => p.rent_amount.isSome)).filterMap
        (fun p => p.bathrooms) = l → l ≠ [] →
      (propertyStats props).avg_bathrooms =
        some ((jsRound ((l.sum / (l.length : Rat)) * 10) : Rat) / 10)) ∧
    ((propertyStats props).avg_square_feet = none ↔
      ∀ p ∈ props.filter (fun p => p.rent_amount.isSome),
        p.square_feet = none) ∧
    (∀ l, (props.filter (fun p => p.rent_amount.isSome)).filterMap
        (fun p => p.square_feet.map (fun n => (n : Rat))) = l → l ≠ [] →
      (propertyStats props).avg_square_feet =
        some (jsRound (l.sum / (l.length : Rat)))) := by
  simp only [propertyStats, statsQuery]
  refine ⟨?_, ?_, ?_, ?_, ?_, ?_, ?_, ?_⟩
  · rw [truthy_map_eq_none_iff, sqlAvg_eq_none_iff,
      filterMap_opt_eq_nil_iff]
    constructor
    · intro h
      rw [List.eq_nil_iff_forall_not_mem]
      intro p hp
      have h1 := (List.mem_filter.mp hp).2
      have h2 := h p hp
      rw [h2] at h1
      cases h1
    · intro h
      rw [h]
      intro p hp
      cases hp
  · intro l hl hne
    rw [← hl]
    exact truthy_map_of_some _ (sqlAvg_eq_some _ (hl ▸ hne))
  · rw [truthy_map_eq_none_iff, sqlAvg_eq_none_iff,
      filterMap_opt_eq_nil_iff]
    constructor
    · intro h p hp
      have := h p hp
      cases hb : p.bedrooms with
      | none => rfl
      | some b => rw [hb] at this; cases this
    · intro h p hp
      rw [h p hp]
      rfl
  · intro l hl hne
    rw [← hl]
    exact truthy_map_of_some _ (sqlAvg_eq_some _ (hl ▸ hne))
  · rw [truthy_map_eq_none_iff, sqlAvg_eq_none_iff,
      filterMap_opt_eq_nil_iff]
  · intro l hl hne
    rw [← hl]
    exact truthy_map_of_some _ (sqlAvg_eq_some _ (hl ▸ hne))
  · rw [truthy_map_eq_none_iff, sqlAvg_eq_none_iff,
      filterMap_opt_eq_nil_iff]
    constructor
    · intro h p hp
      have := h p hp
      cases hb : p.square_feet with
      | none => rfl
      | some b => rw [hb] at this; cases this
    · intro h p hp
      rw [h p hp]
      rfl
  · intro l hl hne
    rw [← hl]
    exact truthy_map_of_some _ (sqlAvg_eq_some _ (hl ▸ hne))

/-- Fixed store row for concrete evaluations: rent present, zero
bedrooms. -/
def pZeroBed : Property :=
  { id := 3, address := "9 Elm Court", city := "Austin", state := "TX",
    zip_code := "78705", rent_amount := some 900, bedrooms := some 0,
    bathrooms := some 1, square_feet := some 400, description := none,
    landlord_id := 5, landlord_verified := false, created_at := 0 }

/-- Concrete instantiation of `c9_stats_null_safety`: over a one-row
store whose only bedroom count is 0, the bedrooms average is reported
as 0, not null. -/
theorem c9_stats_null_safety_witness :
    (propertyStats [pZeroBed]).avg_bedrooms =
      some ((jsRound ((([(0 : Rat)].sum / (([(0 : Rat)].length : Nat) : Rat))
        * 10) : Rat) / 10) : Rat) :=
  ((c9_stats_null_safety [pZeroBed]).2.2.2.1 [(0 : Rat)] (by decide)
    (by decide))

end PropertyService
